import Mathlib

/-!
Verification of the question-answering HTTP service in `src/app.py`.

The embedding is shallow: the external chat-completion library call
(`openai.ChatCompletion.create`) is an explicit state-passing function
parameter, so that theorems can quantify over every possible behaviour of
the external service and, by instantiating the state with a call log,
observe exactly which requests the program submits.
-/

namespace QAService

/-- A role-tagged chat message, as the dicts
`{"role": ..., "content": ...}` built inside `openai_chat_completion`. -/
structure Message where
  role : String
  content : String
deriving DecidableEq, Repr

/-- The outbound payload of `openai.ChatCompletion.create`: a model
identifier and an ordered list of role-tagged messages. -/
structure CompletionRequest where
  model : String
  messages : List Message
deriving DecidableEq, Repr

/-- The `message` object inside one choice; the code reads
`message["content"]`. -/
structure ChoiceMessage where
  content : String
deriving DecidableEq, Repr

/-- One candidate completion choice returned by the external API. -/
structure Choice where
  message : ChoiceMessage
deriving DecidableEq, Repr

/-- The completion response object with its `choices` list. -/
structure Completion where
  choices : List Choice
deriving DecidableEq, Repr

/-- The external library call `openai.ChatCompletion.create`, modelled as a
parameter: given the outbound request and the current external state, it
either fails (network error, authentication failure, rate limit, malformed
response, all opaque strings here) or returns a `Completion`, together with
the next external state. -/
def CreateFn (σ : Type) : Type :=
  CompletionRequest → σ → Except String Completion × σ

/-- The default value of the `model` argument of `openai_chat_completion`
(`model="gpt-3.5-turbo"` in the source). -/
def defaultModel : String := "gpt-3.5-turbo"

/-- `openai_chat_completion(question, model="gpt-3.5-turbo")`: builds the
fixed two-message conversation, submits it through `create`, and returns
`completion.choices[0].message["content"]`. Indexing an empty `choices`
list raises (an `IndexError` in the source), and any failure of the
external call propagates unchanged. -/
def openai_chat_completion {σ : Type} (create : CreateFn σ)
    (question : String) (model : String) (s : σ) : Except String String × σ :=
  let completion := create
    { model := model,
      messages :=
        [{ role := "system", content := "You are a funny assistant." },
         { role := "user", content := question }] } s
  match completion with
  | (Except.error e, s') => (Except.error e, s')
  | (Except.ok completion, s') =>
      match completion.choices with
      | [] => (Except.error "IndexError: list index out of range", s')
      | choice :: _ => (Except.ok choice.message.content, s')

/-- The request value `openai_chat_completion` submits for a given question
and model; spelled out for use in theorem statements. -/
def chatRequest (question model : String) : CompletionRequest :=
  { model := model,
    messages :=
      [{ role := "system", content := "You are a funny assistant." },
       { role := "user", content := question }] }

/-- An incoming HTTP GET request: a path and its query parameters. -/
structure Request where
  path : String
  query : List (String × String)
deriving DecidableEq, Repr

/-- An HTTP response: a status code and, when one is produced, a flat JSON
object rendered as an association list of string fields. -/
structure Response where
  status : Nat
  body : Option (List (String × String))
deriving DecidableEq, Repr

/-- Modelled from the spec: the framework's query-binding layer reads the
first value bound to a parameter name, if any. -/
def lookupParam (query : List (String × String)) (name : String) :
    Option String :=
  match query with
  | [] => none
  | (k, v) :: rest => if k = name then some v else lookupParam rest name

/-- The `GET /` handler body: `return {"Hello": "World"}`. -/
def root : List (String × String) := [("Hello", "World")]

/-- The `GET /qa` handler body: `answer = openai_chat_completion(question)`
with the default model, then `return {"question": question, "answer":
answer}`; a failure from the client propagates uncaught. -/
def qa {σ : Type} (create : CreateFn σ) (question : String) (s : σ) :
    Except String (List (String × String)) × σ :=
  match openai_chat_completion create question defaultModel s with
  | (Except.error e, s') => (Except.error e, s')
  | (Except.ok answer, s') =>
      (Except.ok [("question", question), ("answer", answer)], s')

/-- Modelled from the spec: the framework's dispatch around the two
handlers. `GET /` always answers 200 with the handler's object; `GET /qa`
answers 422 (a client error) without invoking the handler when `question`
is absent, 200 with the handler's object on success, and 500 with no body
when the handler raises; unknown paths answer 404. -/
def handle_request {σ : Type} (create : CreateFn σ) (req : Request)
    (s : σ) : Response × σ :=
  if req.path = "/" then
    ({ status := 200, body := some root }, s)
  else if req.path = "/qa" then
    match lookupParam req.query "question" with
    | none => ({ status := 422, body := none }, s)
    | some question =>
        match qa create question s with
        | (Except.error _, s') => ({ status := 500, body := none }, s')
        | (Except.ok j, s') => ({ status := 200, body := some j }, s')
  else
    ({ status := 404, body := none }, s)

/-- A service wrapper that records every submitted request: it answers with
the pure behaviour `f` and appends the request to the call log, so an
unchanged log means the service was never invoked and each appended entry
is one outbound call. -/
def loggingCreate (f : CompletionRequest → Except String Completion) :
    CreateFn (List CompletionRequest) :=
  fun r log => (f r, log ++ [r])

/-- Modelled from the spec: the external library call reads the
module-level credential (set once at startup by
`openai.api_key = os.getenv("OPENAI_API_KEY")`), performs one outbound
network call recorded in the call log, and writes no module-level state. -/
def libraryCreate
    (f : Option String → CompletionRequest → Except String Completion) :
    CreateFn (Option String × List CompletionRequest) :=
  fun r s => (f s.1 r, (s.1, s.2 ++ [r]))

/-- A stub service with a constant one-choice answer, used in witnesses. -/
def constCreate (ans : String) : CreateFn Unit :=
  fun _ s => (Except.ok (Completion.mk [Choice.mk (ChoiceMessage.mk ans)]), s)

/-- Unfolding equation for `openai_chat_completion`, phrased through
`chatRequest`. -/
theorem openai_chat_completion_eq {σ : Type} (create : CreateFn σ)
    (q model : String) (s : σ) :
    openai_chat_completion create q model s =
      match create (chatRequest q model) s with
      | (Except.error e, s') => (Except.error e, s')
      | (Except.ok completion, s') =>
          match completion.choices with
          | [] => (Except.error "IndexError: list index out of range", s')
          | choice :: _ => (Except.ok choice.message.content, s') := rfl

/-- Unfolding equation for `handle_request` on the `/qa` path. -/
theorem handle_qa_eq {σ : Type} (create : CreateFn σ)
    (params : List (String × String)) (s : σ) :
    handle_request create (Request.mk "/qa" params) s =
      match lookupParam params "question" with
      | none => (Response.mk 422 none, s)
      | some question =>
          match qa create question s with
          | (Except.error _, s') => (Response.mk 500 none, s')
          | (Except.ok j, s') => (Response.mk 200 (some j), s') := rfl

/-- With the logging service, one client invocation appends exactly the
constructed request to the call log. -/
theorem logging_snd (f : CompletionRequest → Except String Completion)
    (q model : String) (log : List CompletionRequest) :
    (openai_chat_completion (loggingCreate f) q model log).2 =
      log ++ [chatRequest q model] := by
  rw [openai_chat_completion_eq]
  rcases hf : f (chatRequest q model) with e | completion
  · simp [loggingCreate, hf]
  · rcases hch : completion.choices with _ | ⟨choice, rest⟩ <;>
      simp [loggingCreate, hf, hch]

/-- With the logging service, one `qa` handler invocation appends exactly
the constructed default-model request to the call log. -/
theorem qa_logging_snd (f : CompletionRequest → Except String Completion)
    (q : String) (log : List CompletionRequest) :
    (qa (loggingCreate f) q log).2 = log ++ [chatRequest q defaultModel] := by
  unfold qa
  rcases hoc : openai_chat_completion (loggingCreate f) q defaultModel log
    with ⟨r, s'⟩
  have h2 : s' = log ++ [chatRequest q defaultModel] := by
    have := logging_snd f q defaultModel log
    rw [hoc] at this
    exact this
  cases r <;> simp [hoc, h2]

/-- Every successful `qa` body pairs the input question with some answer. -/
theorem qa_ok_shape {σ : Type} (create : CreateFn σ) (q : String) (s : σ)
    (j : List (String × String)) (s₂ : σ)
    (h : qa create q s = (Except.ok j, s₂)) :
    ∃ a, j = [("question", q), ("answer", a)] := by
  unfold qa at h
  rcases hoc : openai_chat_completion create q defaultModel s with ⟨r, s₃⟩
  rw [hoc] at h
  cases r with
  | error e => simp at h
  | ok a =>
      simp only [Prod.mk.injEq, Except.ok.injEq] at h
      exact ⟨a, h.1.symm⟩

/-- Claim C1: if a `GET /qa` request with `question=Q` succeeds (status
200), the response body's `question` field equals `Q` verbatim. -/
theorem c1_success_echoes_question {σ : Type} (create : CreateFn σ)
    (q : String) (s : σ) (resp : Response) (s' : σ)
    (h : handle_request create (Request.mk "/qa" [("question", q)]) s =
      (resp, s'))
    (h200 : resp.status = 200) :
    ∃ a, resp.body = some [("question", q), ("answer", a)] := by
  rw [handle_qa_eq] at h
  simp only [lookupParam, if_pos rfl, if_true] at h
  rcases hqa : qa create q s with ⟨r, s₂⟩
  rw [hqa] at h
  cases r with
  | error e =>
      simp only [Prod.mk.injEq] at h
      rw [← h.1] at h200
      simp at h200
  | ok j =>
      simp only [Prod.mk.injEq] at h
      obtain ⟨a, rfl⟩ := qa_ok_shape create q s j s₂ hqa
      exact ⟨a, by rw [← h.1]⟩

/-- Witness for C1 at a concrete stubbed service and question. -/
theorem c1_witness :
    ∃ a, (Response.mk 200
        (some [("question", "hi"), ("answer", "A")])).body =
      some [("question", "hi"), ("answer", a)] :=
  c1_success_echoes_question (constCreate "A") "hi" ()
    (Response.mk 200 (some [("question", "hi"), ("answer", "A")])) ()
    rfl rfl

/-- Claim C2: for every question (and model), the message list submitted
to the external service is exactly the system persona message followed by
a user message equal to the question verbatim: with a logging service, the
one request appended to the call log carries exactly those two messages in
order. -/
theorem c2_submitted_messages (f : CompletionRequest → Except String Completion)
    (q model : String) (log : List CompletionRequest) :
    (openai_chat_completion (loggingCreate f) q model log).2 =
      log ++ [CompletionRequest.mk model
        [Message.mk "system" "You are a funny assistant.",
         Message.mk "user" q]] :=
  logging_snd f q model log

/-- Claim C3: whenever the external service returns a completion whose
first choice is `choice`, the client returns exactly
`choice.message.content`. -/
theorem c3_first_choice_content {σ : Type} (create : CreateFn σ)
    (q model : String) (s s' : σ) (completion : Completion)
    (choice : Choice) (rest : List Choice)
    (hc : create (chatRequest q model) s = (Except.ok completion, s'))
    (hch : completion.choices = choice :: rest) :
    (openai_chat_completion create q model s).1 =
      Except.ok choice.message.content := by
  rw [openai_chat_completion_eq, hc]
  simp [hch]

/-- Witness for C3 at a concrete service response. -/
theorem c3_witness :
    ((openai_chat_completion (constCreate "A") "hi" defaultModel ()).1 =
      Except.ok (ChoiceMessage.mk "A").content) :=
  c3_first_choice_content (constCreate "A") "hi" defaultModel () ()
    (Completion.mk [Choice.mk (ChoiceMessage.mk "A")])
    (Choice.mk (ChoiceMessage.mk "A")) [] rfl rfl

/-- Claim C4: every `GET /` request answers 200 with the literal object
consisting of the single field `Hello = World`, for any query parameters,
any service behaviour, and any state, and leaves the state unchanged. -/
theorem c4_root_static {σ : Type} (create : CreateFn σ)
    (params : List (String × String)) (s : σ) :
    handle_request create (Request.mk "/" params) s =
      (Response.mk 200 (some [("Hello", "World")]), s) := rfl

/-- Claim C5: when the `question` parameter is absent from a `GET /qa`
request, the status is a 4xx client error and the logging service's call
log is unchanged, i.e. the completion client was never invoked. -/
theorem c5_missing_question_client_error
    (f : CompletionRequest → Except String Completion)
    (params : List (String × String)) (log : List CompletionRequest)
    (h : lookupParam params "question" = none) :
    400 ≤ (handle_request (loggingCreate f)
        (Request.mk "/qa" params) log).1.status ∧
    (handle_request (loggingCreate f)
        (Request.mk "/qa" params) log).1.status < 500 ∧
    (handle_request (loggingCreate f) (Request.mk "/qa" params) log).2 =
      log := by
  rw [handle_qa_eq, h]
  exact ⟨by norm_num, by norm_num, rfl⟩

/-- Witness for C5 with an empty query string. -/
theorem c5_witness :
    400 ≤ (handle_request (loggingCreate fun _ => Except.ok (Completion.mk []))
        (Request.mk "/qa" []) []).1.status ∧
    (handle_request (loggingCreate fun _ => Except.ok (Completion.mk []))
        (Request.mk "/qa" []) []).1.status < 500 ∧
    (handle_request (loggingCreate fun _ => Except.ok (Completion.mk []))
        (Request.mk "/qa" []) []).2 = [] :=
  c5_missing_question_client_error (fun _ => Except.ok (Completion.mk []))
    [] [] rfl

/-- A stub service that always fails, used in witnesses. -/
def failCreate : CreateFn Unit :=
  fun _ s => (Except.error "boom", s)

/-- The state after `qa` is the state after the one client call. -/
theorem qa_snd {σ : Type} (create : CreateFn σ) (q : String) (s : σ) :
    (qa create q s).2 =
      (openai_chat_completion create q defaultModel s).2 := by
  unfold qa
  rcases h : openai_chat_completion create q defaultModel s with ⟨r, s'⟩
  cases r <;> rfl

/-- Unfolding equation for `handle_request` on `/qa` when the question
parameter is bound. -/
theorem handle_qa_some {σ : Type} (create : CreateFn σ)
    (params : List (String × String)) (q : String) (s : σ)
    (h : lookupParam params "question" = some q) :
    handle_request create (Request.mk "/qa" params) s =
      match qa create q s with
      | (Except.error _, s') => (Response.mk 500 none, s')
      | (Except.ok j, s') => (Response.mk 200 (some j), s') := by
  rw [handle_qa_eq, h]

/-- The state after a bound `/qa` request is the state after the one
client call. -/
theorem handle_qa_some_snd {σ : Type} (create : CreateFn σ)
    (params : List (String × String)) (q : String) (s : σ)
    (h : lookupParam params "question" = some q) :
    (handle_request create (Request.mk "/qa" params) s).2 =
      (openai_chat_completion create q defaultModel s).2 := by
  rw [handle_qa_some create params q s h]
  have h1 := qa_snd create q s
  rcases hqa : qa create q s with ⟨r, s'⟩
  rw [hqa] at h1
  cases r <;> exact h1

/-- Claim C6: any failure of the external call is propagated untranslated
by the client and the `qa` body, and the endpoint answers 500 with no
body. -/
theorem c6_failure_propagates {σ : Type} (create : CreateFn σ)
    (q e : String) (s s' : σ)
    (h : create (chatRequest q defaultModel) s = (Except.error e, s')) :
    (qa create q s).1 = Except.error e ∧
    handle_request create (Request.mk "/qa" [("question", q)]) s =
      (Response.mk 500 none, s') := by
  have hoc : openai_chat_completion create q defaultModel s =
      (Except.error e, s') := by
    rw [openai_chat_completion_eq, h]
  have hqa : qa create q s = (Except.error e, s') := by
    unfold qa
    rw [hoc]
  refine ⟨by rw [hqa], ?_⟩
  rw [handle_qa_eq]
  simp only [lookupParam, if_pos rfl, if_true]
  rw [hqa]

/-- Witness for C6 at a concrete failing service. -/
theorem c6_witness :
    (qa failCreate "hi" ()).1 = Except.error "boom" ∧
    handle_request failCreate (Request.mk "/qa" [("question", "hi")]) () =
      (Response.mk 500 none, ()) :=
  c6_failure_propagates failCreate "hi" "boom" () () rfl

/-- Claim C7: the empty string is accepted without validation: it is
submitted unchanged inside the user message (the appended call-log entry)
and echoed unchanged in the response's `question` field. -/
theorem c7_empty_question_passthrough
    (f : CompletionRequest → Except String Completion)
    (log : List CompletionRequest) (completion : Completion)
    (choice : Choice) (rest : List Choice)
    (hf : f (chatRequest "" defaultModel) = Except.ok completion)
    (hch : completion.choices = choice :: rest) :
    handle_request (loggingCreate f)
        (Request.mk "/qa" [("question", "")]) log =
      (Response.mk 200
        (some [("question", ""), ("answer", choice.message.content)]),
       log ++ [chatRequest "" defaultModel]) := by
  have hoc : openai_chat_completion (loggingCreate f) "" defaultModel log =
      (Except.ok choice.message.content,
       log ++ [chatRequest "" defaultModel]) := by
    rw [openai_chat_completion_eq]
    simp [loggingCreate, hf, hch]
  have hqa : qa (loggingCreate f) "" log =
      (Except.ok [("question", ""), ("answer", choice.message.content)],
       log ++ [chatRequest "" defaultModel]) := by
    unfold qa
    rw [hoc]
  rw [handle_qa_eq]
  simp only [lookupParam, if_pos rfl, if_true]
  rw [hqa]

/-- Witness for C7 at a concrete stubbed service. -/
theorem c7_witness :
    handle_request (loggingCreate fun _ =>
        Except.ok (Completion.mk [Choice.mk (ChoiceMessage.mk "A")]))
        (Request.mk "/qa" [("question", "")]) [] =
      (Response.mk 200 (some [("question", ""),
        ("answer", (Choice.mk (ChoiceMessage.mk "A")).message.content)]),
       [] ++ [chatRequest "" defaultModel]) :=
  c7_empty_question_passthrough
    (fun _ => Except.ok (Completion.mk [Choice.mk (ChoiceMessage.mk "A")]))
    [] (Completion.mk [Choice.mk (ChoiceMessage.mk "A")])
    (Choice.mk (ChoiceMessage.mk "A")) [] rfl rfl

/-- Claim C8: one invocation of the client, or of the `/qa` endpoint,
performs exactly one outbound call (the call log grows by exactly the one
constructed request) and leaves the module-level credential unchanged. -/
theorem c8_one_call_no_mutation
    (f : Option String → CompletionRequest → Except String Completion)
    (key : Option String) (log : List CompletionRequest) (q : String) :
    (openai_chat_completion (libraryCreate f) q defaultModel (key, log)).2 =
      (key, log ++ [chatRequest q defaultModel]) ∧
    (handle_request (libraryCreate f)
        (Request.mk "/qa" [("question", q)]) (key, log)).2 =
      (key, log ++ [chatRequest q defaultModel]) := by
  have hoc :
      (openai_chat_completion (libraryCreate f) q defaultModel
        (key, log)).2 = (key, log ++ [chatRequest q defaultModel]) := by
    rw [openai_chat_completion_eq]
    rcases hf : f key (chatRequest q defaultModel) with e | completion
    · simp [libraryCreate, hf]
    · rcases hch : completion.choices with _ | ⟨choice, rest⟩ <;>
        simp [libraryCreate, hf, hch]
  refine ⟨hoc, ?_⟩
  have hlk : lookupParam [("question", q)] "question" = some q := by
    simp [lookupParam]
  rw [handle_qa_some_snd (libraryCreate f) [("question", q)] q (key, log) hlk]
  exact hoc

/-- Claim C9: no HTTP request whatsoever makes the program submit a
request with any model other than the fixed default `gpt-3.5-turbo`:
every entry the handler appends to the call log carries that model. -/
theorem c9_fixed_model (f : CompletionRequest → Except String Completion)
    (req : Request) (log : List CompletionRequest) :
    ∀ r, r ∈ (handle_request (loggingCreate f) req log).2 →
      r ∈ log ∨ r.model = "gpt-3.5-turbo" := by
  rcases req with ⟨p, qr⟩
  intro r hr
  by_cases h1 : p = "/"
  · subst h1
    exact Or.inl hr
  · by_cases h2 : p = "/qa"
    · subst h2
      rcases hlk : lookupParam qr "question" with _ | q
      · have hz : (handle_request (loggingCreate f)
            (Request.mk "/qa" qr) log).2 = log := by
          rw [handle_qa_eq, hlk]
        rw [hz] at hr
        exact Or.inl hr
      · have hz : (handle_request (loggingCreate f)
            (Request.mk "/qa" qr) log).2 =
            log ++ [chatRequest q defaultModel] := by
          rw [handle_qa_some_snd (loggingCreate f) qr q log hlk,
            logging_snd]
        rw [hz] at hr
        rcases List.mem_append.mp hr with hm | hm
        · exact Or.inl hm
        · right
          rw [List.mem_singleton.mp hm]
          rfl
    · have hz : (handle_request (loggingCreate f)
          (Request.mk p qr) log).2 = log := by
        unfold handle_request
        rw [if_neg h1, if_neg h2]
      rw [hz] at hr
      exact Or.inl hr

/-- Witness for C9: the one logged request of a concrete call carries the
default model. -/
theorem c9_witness :
    chatRequest "hi" defaultModel ∈ ([] : List CompletionRequest) ∨
      (chatRequest "hi" defaultModel).model = "gpt-3.5-turbo" :=
  c9_fixed_model (fun _ => Except.ok (Completion.mk []))
    (Request.mk "/qa" [("question", "hi")]) []
    (chatRequest "hi" defaultModel)
    (List.mem_singleton.mpr rfl)

/-- Claim C10: the `/qa` response is determined by the question value and
the service's answer at the constructed request alone: any two requests
binding the same question, served by services agreeing on that one
request, get identical responses. -/
theorem c10_deterministic {σ : Type} (create₁ create₂ : CreateFn σ)
    (q : String) (params₁ params₂ : List (String × String)) (s : σ)
    (h₁ : lookupParam params₁ "question" = some q)
    (h₂ : lookupParam params₂ "question" = some q)
    (hc : create₁ (chatRequest q defaultModel) s =
      create₂ (chatRequest q defaultModel) s) :
    (handle_request create₁ (Request.mk "/qa" params₁) s).1 =
      (handle_request create₂ (Request.mk "/qa" params₂) s).1 := by
  have hq : qa create₁ q s = qa create₂ q s := by
    unfold qa
    rw [openai_chat_completion_eq, openai_chat_completion_eq, hc]
  rw [handle_qa_some create₁ params₁ q s h₁,
    handle_qa_some create₂ params₂ q s h₂, hq]

/-- Witness for C10: the same question among different extra parameters
gets the same response. -/
theorem c10_witness :
    (handle_request (constCreate "A")
        (Request.mk "/qa" [("question", "hi")]) ()).1 =
      (handle_request (constCreate "A")
        (Request.mk "/qa" [("x", "1"), ("question", "hi")]) ()).1 :=
  c10_deterministic (constCreate "A") (constCreate "A") "hi"
    [("question", "hi")] [("x", "1"), ("question", "hi")] () rfl rfl rfl

end QAService
